import Mathlib

/-!
Shallow embedding of the portable value-codec layer of
`lib/rucio/db/sqla/types.py` and of `list_distances` from
`lib/rucio/core/distance.py`.

Python values crossing the codec boundary are modelled by the inductive
type `PyVal`; the four SQLAlchemy dialects by `Dialect`; Python
exceptions by `PyErr` (`InvalidType` from `rucio.common.exception`, and
the built-in `ValueError` / `TypeError` / `AttributeError`).  Fallible
Python calls return `Except PyErr _`.

The standard-library `uuid` module is modelled from its CPython source:
`uuid.UUID(hex)` strips the substrings `urn:` and `uuid:`, strips
braces from both ends, removes dashes, requires 32 remaining characters
and parses them as hexadecimal; `str(u)` is the lowercase dashed
8-4-4-4-12 rendering of the 128-bit integer; `u.bytes` is the
big-endian 16-byte form, and `uuid.UUID(bytes=b)` requires exactly 16
bytes.  (`int(s, 16)` is modelled as strict hexadecimal parsing; its
`0x`-prefix and underscore quirks are irrelevant to the inputs
considered here, all of which are plain hex digits and dashes.)
-/

/-- The four dialect names dispatched on in `types.py`
(`postgresql`, `oracle`, `mysql`, and anything else). -/
inductive Dialect
  | postgresql
  | oracle
  | mysql
  | generic
deriving DecidableEq

/-- Python values appearing at the codec boundary: `None`, `bool`,
`str`, `bytes` (a list of byte values), `uuid.UUID` objects (carrying
their 128-bit `.int`; the `uuid` module keeps this below `2 ^ 128`),
and the `InternalAccount` / `InternalScope` wrappers of
`rucio.common.types` (carrying their `.internal` string and the
`from_external` flag they were constructed with). -/
inductive PyVal
  | none
  | pyBool (b : Bool)
  | str (s : String)
  | bytes (bs : List Nat)
  | uuidObj (n : Nat)
  | internalAccount (internal : String) (from_external : Bool)
  | internalScope (internal : String) (from_external : Bool)
deriving DecidableEq

/-- Python exceptions raised by the modelled code. -/
inductive PyErr
  | invalidType
  | valueError
  | typeError
  | attributeError
deriving DecidableEq

/-- Lowercase hexadecimal digit character for `d < 16`,
as produced by Python's `%x` formatting and by `uuid`. -/
def toHexDigit (d : Nat) : Char :=
  if d < 10 then Char.ofNat (48 + d) else Char.ofNat (87 + d)

/-- Big-endian fixed-width hexadecimal rendering of `n` (`w` digits),
most significant digit first: the digit list of `"%.32x" % n` when
`w = 32` and `n < 16 ^ 32`. -/
def natToHexBE : Nat → Nat → List Char
  | 0, _ => []
  | w + 1, n => toHexDigit (n / 16 ^ w % 16) :: natToHexBE w n

/-- Value of a hexadecimal digit character (Python `int(_, 16)` accepts
both cases). -/
def hexDigitVal (c : Char) : Option Nat :=
  if 48 ≤ c.toNat ∧ c.toNat ≤ 57 then some (c.toNat - 48)
  else if 97 ≤ c.toNat ∧ c.toNat ≤ 102 then some (c.toNat - 87)
  else if 65 ≤ c.toNat ∧ c.toNat ≤ 70 then some (c.toNat - 55)
  else Option.none

/-- Left fold of hexadecimal digits onto an accumulator; `Option.none`
on the first non-hex character (the `ValueError` of `int(_, 16)`). -/
def hexFoldFrom (a : Nat) : List Char → Option Nat
  | [] => some a
  | c :: rest =>
    match hexDigitVal c with
    | some d => hexFoldFrom (16 * a + d) rest
    | Option.none => Option.none

/-- `int(s, 16)` on a digit list, strict hexadecimal. -/
def hexListToNat (l : List Char) : Option Nat := hexFoldFrom 0 l

/-- Python `str.replace(pat, '')` on character lists: every occurrence
of `pat` is removed, scanning left to right. -/
def replaceSub (pat : List Char) : List Char → List Char
  | [] => []
  | c :: rest =>
    if pat.isPrefixOf (c :: rest) then replaceSub pat (rest.drop (pat.length - 1))
    else c :: replaceSub pat rest
termination_by l => l.length
decreasing_by
  · simp only [List.length_cons, List.length_drop]
    omega
  · simp only [List.length_cons]
    omega

/-- Membership in the strip set of Python `str.strip(chars)` applied
with the two brace characters. -/
def isStripBrace (c : Char) : Bool := c == '\x7b' || c == '\x7d'

/-- Python `str.strip(braces)`: remove brace characters from both ends. -/
def stripBraces (l : List Char) : List Char :=
  ((l.dropWhile isStripBrace).reverse.dropWhile isStripBrace).reverse

/-- `uuid.UUID(hex=s).int`, modelled from CPython `uuid.UUID.__init__`:
replace `urn:` and `uuid:` by nothing, strip braces, drop dashes,
require 32 characters, parse as hexadecimal.  `Option.none` is the
`ValueError` path. -/
def pyUuidParse (s : String) : Option Nat :=
  let l1 := replaceSub "urn:".data s.data
  let l2 := replaceSub "uuid:".data l1
  let l3 := replaceSub ['-'] (stripBraces l2)
  if l3.length = 32 then hexListToNat l3 else Option.none

/-- `uuid.UUID(value).int` on an arbitrary Python value: a string is
parsed; a `uuid.UUID` object raises (CPython calls `hex.replace` on
the argument, and `UUID` has no `replace` attribute — likewise `bool`);
the remaining shapes also raise (the precise built-in exception class
for those unexercised shapes is approximated by `TypeError`). -/
def pyUuidFromVal : PyVal → Except PyErr Nat
  | .str s =>
    match pyUuidParse s with
    | some n => .ok n
    | Option.none => .error .valueError
  | .uuidObj _ => .error .attributeError
  | .pyBool _ => .error .attributeError
  | _ => .error .typeError

/-- Big-endian fixed-width byte rendering of `n` (`w` bytes): the value
of `uuid.UUID(...).bytes` when `w = 16`. -/
def natToBytesBE : Nat → Nat → List Nat
  | 0, _ => []
  | w + 1, n => (n / 256 ^ w % 256) :: natToBytesBE w n

/-- Left fold of big-endian bytes: `int.from_bytes(l, 'big')`. -/
def bytesFoldFrom (a : Nat) : List Nat → Nat
  | [] => a
  | b :: rest => bytesFoldFrom (256 * a + b) rest

/-- `int.from_bytes(l, 'big')`. -/
def bytesToNat (l : List Nat) : Nat := bytesFoldFrom 0 l

/-- `uuid.UUID(bytes=bs).int`: exactly 16 bytes are required, then the
big-endian integer is taken (`ValueError` otherwise). -/
def pyUuidFromBytes (bs : List Nat) : Except PyErr Nat :=
  if bs.length = 16 then .ok (bytesToNat bs) else .error .valueError

/-- `uuid.UUID(...).bytes`: the 16-byte big-endian form. -/
def uuidBytes (n : Nat) : List Nat := natToBytesBE 16 n

/-- Digit list of `str(uuid.UUID(...))`: the 32 hex digits with dashes
inserted in the 8-4-4-4-12 pattern, from CPython `UUID.__str__`. -/
def uuidStrChars (n : Nat) : List Char :=
  let h := natToHexBE 32 n
  h.take 8 ++ '-' :: (h.drop 8).take 4 ++ '-' :: (h.drop 12).take 4
    ++ '-' :: (h.drop 16).take 4 ++ '-' :: h.drop 20

/-- Python `str.lower()` (ASCII inputs only cross this boundary). -/
def lowerStr (s : String) : String := String.mk (s.data.map Char.toLower)

/-- Python `str(value)`.  The shapes a codec can actually receive are
modelled faithfully (`None`, booleans, strings, `uuid.UUID`); `bytes`
would render through `repr`, and the identity wrappers through their
`__str__`; no theorem below exercises those two renderings, so their
exact text is left as a placeholder. -/
def pyStr : PyVal → String
  | .none => "None"
  | .pyBool true => "True"
  | .pyBool false => "False"
  | .str s => s
  | .uuidObj n => String.mk (uuidStrChars n)
  | .bytes _ => "<bytes repr>"
  | .internalAccount s _ => s
  | .internalScope s _ => s

/-- The canonical lowercase 32-hex-digit rendering of a 128-bit
identifier, dashes stripped: `"%.32x" % n`. -/
def uuidCanonical (n : Nat) : String := String.mk (natToHexBE 32 n)

/-- `str(u).replace('-', '').lower()` for a `uuid.UUID` object `u`:
the exact expression of `GUID.process_result_value`. -/
def canonOfUuidObj (n : Nat) : String :=
  String.mk ((replaceSub ['-'] (uuidStrChars n)).map Char.toLower)

/-- Physical column shapes returned by the `load_dialect_impl` /
`load_dialect_imp` methods (`dialect.type_descriptor(...)` arguments). -/
inductive ColumnShape
  | uuidNative
  | raw (size : Nat)
  | binary (size : Nat)
  | charFixed (length : Nat)
  | varchar (length : Option Nat)
  | jsonbNative
  | jsonNative
  | clobNative
deriving DecidableEq

/-- `GUID.load_dialect_impl`. -/
def GUID.load_dialect_impl : Dialect → ColumnShape
  | .postgresql => .uuidNative
  | .oracle => .raw 16
  | .mysql => .binary 16
  | .generic => .charFixed 32

/-- `GUID.process_bind_param`: `None` passes through; postgresql takes
`str(value).lower()`; oracle and mysql take `uuid.UUID(value).bytes`;
otherwise a non-`uuid.UUID` value is parsed and formatted as
`"%.32x" % uuid.UUID(value).int`, and a `uuid.UUID` object as
`"%.32x" % value.int`. -/
def GUID.process_bind_param (value : PyVal) (dialect : Dialect) : Except PyErr PyVal :=
  match value with
  | .none => .ok .none
  | v =>
    match dialect with
    | .postgresql => .ok (.str (lowerStr (pyStr v)))
    | .oracle => (pyUuidFromVal v).map fun n => PyVal.bytes (uuidBytes n)
    | .mysql => (pyUuidFromVal v).map fun n => PyVal.bytes (uuidBytes n)
    | .generic =>
      match v with
      | .uuidObj n => .ok (.str (String.mk (natToHexBE 32 n)))
      | w => (pyUuidFromVal w).map fun n => PyVal.str (String.mk (natToHexBE 32 n))

/-- `GUID.process_result_value`: `None` passes through; oracle and
mysql render `str(value if isinstance(value, uuid.UUID) else
uuid.UUID(bytes=value)).replace('-', '').lower()`; every other dialect
renders `str(value if isinstance(value, uuid.UUID) else
uuid.UUID(value)).replace('-', '').lower()`.  A value that is neither
a `uuid.UUID` nor the accepted raw shape makes the `uuid.UUID`
constructor raise. -/
def GUID.process_result_value (value : PyVal) (dialect : Dialect) : Except PyErr PyVal :=
  match value with
  | .none => .ok .none
  | v =>
    match dialect with
    | .oracle | .mysql =>
      match v with
      | .uuidObj n => .ok (.str (canonOfUuidObj n))
      | .bytes bs => (pyUuidFromBytes bs).map fun n => PyVal.str (canonOfUuidObj n)
      | _ => .error .typeError
    | .postgresql | .generic =>
      match v with
      | .uuidObj n => .ok (.str (canonOfUuidObj n))
      | .str s =>
        match pyUuidParse s with
        | some n => .ok (.str (canonOfUuidObj n))
        | Option.none => .error .valueError
      | _ => .error .typeError

/-- Write-then-read composition for the `GUID` codec on one dialect. -/
def guidRoundTrip (value : PyVal) (dialect : Dialect) : Except PyErr PyVal :=
  match GUID.process_bind_param value dialect with
  | .ok stored => GUID.process_result_value stored dialect
  | .error e => .error e

/-- `BooleanString.load_dialect_imp` (the method is spelled without the
final `l` in the source): `String(255)` for every dialect. -/
def BooleanString.load_dialect_imp (_ : Dialect) : ColumnShape := .varchar (some 255)

/-- `BooleanString.process_bind_param`: `None` passes through; a `bool`
becomes the literal `'true'` / `'false'`; a string case-insensitively
equal to `'true'` / `'false'` is normalized to that lowercase literal;
anything else falls through to `str(value)`. -/
def BooleanString.process_bind_param (value : PyVal) (_ : Dialect) : Except PyErr PyVal :=
  match value with
  | .none => .ok .none
  | .pyBool b => if b then .ok (.str "true") else .ok (.str "false")
  | .str s =>
    if lowerStr s = "true" then .ok (.str "true")
    else if lowerStr s = "false" then .ok (.str "false")
    else .ok (.str (pyStr (.str s)))
  | v => .ok (.str (pyStr v))

/-- `BooleanString.process_result_value`: `None` passes through; stored
text case-insensitively equal to `'true'` / `'false'` becomes the
boolean; anything else is returned verbatim.  (`value.lower()` on a
non-string would raise `AttributeError`; the database returns text.) -/
def BooleanString.process_result_value (value : PyVal) (_ : Dialect) : Except PyErr PyVal :=
  match value with
  | .none => .ok .none
  | .str s =>
    if lowerStr s = "true" then .ok (.pyBool true)
    else if lowerStr s = "false" then .ok (.pyBool false)
    else .ok (.str s)
  | _ => .error .attributeError

/-- Write-then-read composition for the `BooleanString` codec. -/
def boolRoundTrip (value : PyVal) (dialect : Dialect) : Except PyErr PyVal :=
  match BooleanString.process_bind_param value dialect with
  | .ok stored => BooleanString.process_result_value stored dialect
  | .error e => .error e

/-- `JSON.load_dialect_impl`: `JSONB` on postgresql, `JSON` on mysql,
`CLOB` on oracle, plain `String()` otherwise. -/
def JSON.load_dialect_impl : Dialect → ColumnShape
  | .postgresql => .jsonbNative
  | .mysql => .jsonNative
  | .oracle => .clobNative
  | .generic => .varchar Option.none

/-- Modelled from the spec: the structured-document codec "delegates
entirely to the backend's own JSON (de)serialization semantics — this
codec's sole responsibility is SHAPE selection, not value
transformation" (the class overrides neither `process_bind_param` nor
`process_result_value`, so the write path is the identity at this
layer, and `None` passes through as SQL NULL). -/
def JSON.process_bind_param (value : PyVal) (_ : Dialect) : Except PyErr PyVal := .ok value

/-- Modelled from the spec: read-path counterpart of
`JSON.process_bind_param`; no value transformation at this layer. -/
def JSON.process_result_value (value : PyVal) (_ : Dialect) : Except PyErr PyVal := .ok value

/-- Modelled from the spec: constructing the namespaced-identity
wrapper (`rucio.common.types.InternalAccount` / `InternalScope`, not
under `src/`) performs the external→internal namespace-resolution step
exactly when its `from_external` argument is true; `from_external =
False` reconstructs the wrapper directly from the stored internal
string and bypasses resolution. -/
def namespaceResolutionInvoked (from_external : Bool) : Bool := from_external

/-- `InternalAccountString.load_dialect_imp` (spelled without the final
`l` in the source): `String(255)` for every dialect. -/
def InternalAccountString.load_dialect_imp (_ : Dialect) : ColumnShape := .varchar (some 255)

/-- `InternalAccountString.process_bind_param`: `None` passes through;
a plain string raises `InvalidType`; otherwise `value.internal` is
stored (both wrapper kinds expose `.internal`; shapes without that
attribute raise `AttributeError`). -/
def InternalAccountString.process_bind_param (value : PyVal) (_ : Dialect) : Except PyErr PyVal :=
  match value with
  | .none => .ok .none
  | .str _ => .error .invalidType
  | .internalAccount s _ => .ok (.str s)
  | .internalScope s _ => .ok (.str s)
  | _ => .error .attributeError

/-- `InternalAccountString.process_result_value`: `None` passes
through; otherwise `InternalAccount(value, from_external=False)`.
The database returns text, so only the string shape is modelled. -/
def InternalAccountString.process_result_value (value : PyVal) (_ : Dialect) : Except PyErr PyVal :=
  match value with
  | .none => .ok .none
  | .str s => .ok (.internalAccount s false)
  | _ => .error .typeError

/-- SQLAlchemy comparison operators dispatched on by
`coerce_compared_value` (`operators.like_op` / `operators.notlike_op`
against everything else). -/
inductive SqlOperator
  | like_op
  | notlike_op
  | eq_op
  | ne_op
  | lt_op
  | in_op
deriving DecidableEq

/-- The type object returned by `coerce_compared_value`: either the
plain `String()` type or the typed codec itself. -/
inductive TypeEngine
  | stringPlain
  | internalAccountStringType
  | internalScopeStringType
deriving DecidableEq

/-- `InternalAccountString.coerce_compared_value`: plain `String()` for
`like_op` / `notlike_op`, the codec itself for every other operator. -/
def InternalAccountString.coerce_compared_value (op : SqlOperator) (_ : PyVal) : TypeEngine :=
  match op with
  | .like_op => .stringPlain
  | .notlike_op => .stringPlain
  | _ => .internalAccountStringType

/-- `InternalScopeString.load_dialect_imp` (spelled without the final
`l` in the source): `String(255)` for every dialect. -/
def InternalScopeString.load_dialect_imp (_ : Dialect) : ColumnShape := .varchar (some 255)

/-- `InternalScopeString.process_bind_param`: identical structure to
the account codec. -/
def InternalScopeString.process_bind_param (value : PyVal) (_ : Dialect) : Except PyErr PyVal :=
  match value with
  | .none => .ok .none
  | .str _ => .error .invalidType
  | .internalAccount s _ => .ok (.str s)
  | .internalScope s _ => .ok (.str s)
  | _ => .error .attributeError

/-- `InternalScopeString.process_result_value`: `None` passes through;
otherwise `InternalScope(value, from_external=False)`. -/
def InternalScopeString.process_result_value (value : PyVal) (_ : Dialect) : Except PyErr PyVal :=
  match value with
  | .none => .ok .none
  | .str s => .ok (.internalScope s false)
  | _ => .error .typeError

/-- `InternalScopeString.coerce_compared_value`. -/
def InternalScopeString.coerce_compared_value (op : SqlOperator) (_ : PyVal) : TypeEngine :=
  match op with
  | .like_op => .stringPlain
  | .notlike_op => .stringPlain
  | _ => .internalScopeStringType

/-- Values stored in the keyed records produced by `to_dict`. -/
inductive DictVal
  | vstr (s : String)
  | vint (i : Int)
  | vnull
deriving DecidableEq

/-- A row of the `distances` table as visible through
`lib/rucio/core/distance.py`: source and destination RSE ids and the
optional integer distance.  (The ORM model class lives outside `src/`;
the claim checked below does not depend on the exact column set.) -/
structure Distance where
  src_rse_id : String
  dest_rse_id : String
  distance : Option Int
deriving DecidableEq

/-- `Distance.to_dict`: the plain keyed-record projection of a row. -/
def Distance.to_dict (d : Distance) : List (String × DictVal) :=
  [("src_rse_id", .vstr d.src_rse_id),
   ("dest_rse_id", .vstr d.dest_rse_id),
   ("distance", match d.distance with
     | some i => .vint i
     | Option.none => .vnull)]

/-- `list_distances(filter_, session)`: the session is modelled by the
list of rows `select(Distance)` yields, in order.  The body replaces a
missing `filter_` by the empty dictionary (`filter_ = filter_ or {}`)
and then selects every row, projecting each through `to_dict`. -/
def list_distances (filterArg : Option (List (String × DictVal)))
    (session : List Distance) : List (List (String × DictVal)) :=
  let _filter :=
    match filterArg with
    | some f => f
    | Option.none => ([] : List (String × DictVal))
  session.map fun d => d.to_dict

theorem toHexDigit_spec (d : Nat) (h : d < 16) :
    hexDigitVal (toHexDigit d) = some d ∧
    toHexDigit d ≠ 'u' ∧ toHexDigit d ≠ '-' ∧
    isStripBrace (toHexDigit d) = false ∧
    (toHexDigit d).toLower = toHexDigit d := by
  interval_cases d <;> exact ⟨by decide, by decide, by decide, by decide, by decide⟩

theorem natToHexBE_length (w n : Nat) : (natToHexBE w n).length = w := by
  induction w generalizing n with
  | zero => rfl
  | succ w ih => simp [natToHexBE, ih]

theorem mem_natToHexBE (w n : Nat) (c : Char) (h : c ∈ natToHexBE w n) :
    ∃ d, d < 16 ∧ c = toHexDigit d := by
  induction w generalizing n with
  | zero => simp [natToHexBE] at h
  | succ w ih =>
    simp only [natToHexBE, List.mem_cons] at h
    rcases h with h | h
    · exact ⟨n / 16 ^ w % 16, Nat.mod_lt _ (by norm_num), h⟩
    · exact ih n h

theorem hexFoldFrom_natToHexBE (w : Nat) :
    ∀ a n, hexFoldFrom a (natToHexBE w n) = some (a * 16 ^ w + n % 16 ^ w) := by
  induction w with
  | zero => intro a n; simp [natToHexBE, hexFoldFrom, Nat.mod_one]
  | succ w ih =>
    intro a n
    rw [natToHexBE, hexFoldFrom]
    rw [(toHexDigit_spec (n / 16 ^ w % 16) (Nat.mod_lt _ (by norm_num))).1]
    show hexFoldFrom (16 * a + n / 16 ^ w % 16) (natToHexBE w n) = _
    rw [ih]
    congr 1
    rw [pow_succ, Nat.mod_mul]
    ring

theorem hexListToNat_natToHexBE (w n : Nat) (h : n < 16 ^ w) :
    hexListToNat (natToHexBE w n) = some n := by
  unfold hexListToNat
  rw [hexFoldFrom_natToHexBE]
  simp [Nat.mod_eq_of_lt h]

theorem replaceSub_cons_of_not_mem (p : Char) (ps l : List Char) (h : p ∉ l) :
    replaceSub (p :: ps) l = l := by
  induction l with
  | nil => simp [replaceSub]
  | cons c rest ih =>
    rw [replaceSub]
    have hpc : (p == c) = false := by
      simp only [List.mem_cons, not_or] at h
      simp [h.1]
    have hpre : (p :: ps).isPrefixOf (c :: rest) = false := by
      simp [List.isPrefixOf, hpc]
    rw [hpre]
    simp only [if_false, Bool.false_eq_true]
    rw [ih (fun hm => h (List.mem_cons_of_mem _ hm))]

theorem replaceSub_single (a : Char) (l : List Char) :
    replaceSub [a] l = l.filter (fun c => c != a) := by
  induction l with
  | nil => simp [replaceSub]
  | cons c rest ih =>
    rw [replaceSub]
    by_cases h : a = c
    · subst h
      simp [List.isPrefixOf, List.filter, ih]
    · have hne : c ≠ a := fun he => h he.symm
      have hb : (c != a) = true := bne_iff_ne.mpr hne
      simp [List.isPrefixOf, List.filter, h, hb, ih]

theorem dropWhile_eq_self_of_forall (p : Char → Bool) (l : List Char)
    (h : ∀ c ∈ l, p c = false) : l.dropWhile p = l := by
  cases l with
  | nil => rfl
  | cons c rest =>
    rw [List.dropWhile_cons]
    simp [h c (List.mem_cons_self c rest)]

theorem stripBraces_eq_self (l : List Char) (h : ∀ c ∈ l, isStripBrace c = false) :
    stripBraces l = l := by
  unfold stripBraces
  rw [dropWhile_eq_self_of_forall _ _ h]
  rw [dropWhile_eq_self_of_forall _ _ (fun c hc => h c (List.mem_reverse.mp hc))]
  exact List.reverse_reverse l

theorem natToHexBE_no_u (w n : Nat) : 'u' ∉ natToHexBE w n := by
  intro hm
  obtain ⟨d, hd, he⟩ := mem_natToHexBE w n 'u' hm
  exact (toHexDigit_spec d hd).2.1 he.symm

theorem natToHexBE_no_dash (w n : Nat) : '-' ∉ natToHexBE w n := by
  intro hm
  obtain ⟨d, hd, he⟩ := mem_natToHexBE w n '-' hm
  exact (toHexDigit_spec d hd).2.2.1 he.symm

theorem natToHexBE_no_brace (w n : Nat) : ∀ c ∈ natToHexBE w n, isStripBrace c = false := by
  intro c hm
  obtain ⟨d, hd, he⟩ := mem_natToHexBE w n c hm
  rw [he]
  exact (toHexDigit_spec d hd).2.2.2.1

theorem natToHexBE_map_toLower (w n : Nat) :
    (natToHexBE w n).map Char.toLower = natToHexBE w n := by
  induction w generalizing n with
  | zero => rfl
  | succ w ih =>
    rw [natToHexBE, List.map_cons]
    rw [(toHexDigit_spec (n / 16 ^ w % 16) (Nat.mod_lt _ (by norm_num))).2.2.2.2]
    rw [ih]

theorem pyUuidParse_canonical (n : Nat) (h : n < 2 ^ 128) :
    pyUuidParse (uuidCanonical n) = some n := by
  have h16 : n < 16 ^ 32 := lt_of_lt_of_eq h (by norm_num)
  have e1 : replaceSub "urn:".data (natToHexBE 32 n) = natToHexBE 32 n := by
    rw [show "urn:".data = 'u' :: "rn:".data from rfl]
    exact replaceSub_cons_of_not_mem _ _ _ (natToHexBE_no_u 32 n)
  have e2 : replaceSub "uuid:".data (natToHexBE 32 n) = natToHexBE 32 n := by
    rw [show "uuid:".data = 'u' :: "uid:".data from rfl]
    exact replaceSub_cons_of_not_mem _ _ _ (natToHexBE_no_u 32 n)
  have e3 := stripBraces_eq_self _ (natToHexBE_no_brace 32 n)
  have e4 : replaceSub ['-'] (natToHexBE 32 n) = natToHexBE 32 n :=
    replaceSub_cons_of_not_mem _ _ _ (natToHexBE_no_dash 32 n)
  show (let l1 := replaceSub "urn:".data (String.mk (natToHexBE 32 n)).data
        let l2 := replaceSub "uuid:".data l1
        let l3 := replaceSub ['-'] (stripBraces l2)
        if l3.length = 32 then hexListToNat l3 else Option.none) = some n
  show (if (replaceSub ['-'] (stripBraces (replaceSub "uuid:".data
          (replaceSub "urn:".data (natToHexBE 32 n))))).length = 32
        then hexListToNat (replaceSub ['-'] (stripBraces (replaceSub "uuid:".data
          (replaceSub "urn:".data (natToHexBE 32 n)))))
        else Option.none) = some n
  rw [e1, e2, e3, e4]
  rw [if_pos (natToHexBE_length 32 n)]
  exact hexListToNat_natToHexBE 32 n h16

theorem natToBytesBE_length (w n : Nat) : (natToBytesBE w n).length = w := by
  induction w generalizing n with
  | zero => rfl
  | succ w ih => simp [natToBytesBE, ih]

theorem bytesFoldFrom_natToBytesBE (w : Nat) :
    ∀ a n, bytesFoldFrom a (natToBytesBE w n) = a * 256 ^ w + n % 256 ^ w := by
  induction w with
  | zero => intro a n; simp [natToBytesBE, bytesFoldFrom, Nat.mod_one]
  | succ w ih =>
    intro a n
    rw [natToBytesBE, bytesFoldFrom, ih]
    rw [pow_succ, Nat.mod_mul]
    ring

theorem pyUuidFromBytes_uuidBytes (n : Nat) (h : n < 2 ^ 128) :
    pyUuidFromBytes (uuidBytes n) = .ok n := by
  unfold pyUuidFromBytes uuidBytes
  rw [if_pos (natToBytesBE_length 16 n)]
  unfold bytesToNat
  rw [bytesFoldFrom_natToBytesBE]
  congr 1
  rw [Nat.mod_eq_of_lt (lt_of_lt_of_eq h (by norm_num))]
  ring

theorem filter_ne_dash_uuidStrChars (n : Nat) :
    (uuidStrChars n).filter (fun c => c != '-') = natToHexBE 32 n := by
  have hall : ∀ c ∈ natToHexBE 32 n, (c != '-') = true := fun c hc =>
    bne_iff_ne.mpr (fun he => natToHexBE_no_dash 32 n (he ▸ hc))
  have hfil : ∀ l : List Char, l ⊆ natToHexBE 32 n → l.filter (fun c => c != '-') = l := by
    intro l hsub
    rw [List.filter_eq_self]
    exact fun c hc => hall c (hsub hc)
  unfold uuidStrChars
  simp only [List.filter_append, List.filter_cons, bne_self_eq_false, Bool.false_eq_true,
    if_false]
  rw [hfil _ (List.take_subset _ _)]
  rw [hfil _ (fun c hc => List.drop_subset _ _ (List.take_subset _ _ hc))]
  rw [hfil _ (fun c hc => List.drop_subset _ _ (List.take_subset _ _ hc))]
  rw [hfil _ (fun c hc => List.drop_subset _ _ (List.take_subset _ _ hc))]
  rw [hfil _ (List.drop_subset _ _)]
  have hd20 : (natToHexBE 32 n).drop 20 = ((natToHexBE 32 n).drop 16).drop 4 := by
    rw [List.drop_drop]
  have hd16 : (natToHexBE 32 n).drop 16 = ((natToHexBE 32 n).drop 12).drop 4 := by
    rw [List.drop_drop]
  have hd12 : (natToHexBE 32 n).drop 12 = ((natToHexBE 32 n).drop 8).drop 4 := by
    rw [List.drop_drop]
  rw [hd20, List.append_assoc, List.take_append_drop, hd16,
    List.append_assoc, List.take_append_drop, hd12,
    List.append_assoc, List.take_append_drop, List.take_append_drop]

theorem canonOfUuidObj_eq (n : Nat) : canonOfUuidObj n = uuidCanonical n := by
  unfold canonOfUuidObj uuidCanonical
  rw [replaceSub_single, filter_ne_dash_uuidStrChars, natToHexBE_map_toLower]

theorem lowerStr_uuidCanonical (n : Nat) : lowerStr (uuidCanonical n) = uuidCanonical n := by
  unfold lowerStr uuidCanonical
  rw [show (String.mk (natToHexBE 32 n)).data = natToHexBE 32 n from rfl,
    natToHexBE_map_toLower]

/-- C1: for every valid 128-bit universal identifier `u` (given in its
canonical hex-string form) and every backend `b`, decoding the encoding
of `u` under `b` yields the canonical lowercase 32-hex-digit string of
`u` with no dashes — the same string for all four backends. -/
theorem C1_guid_roundtrip (n : Nat) (h : n < 2 ^ 128) (b : Dialect) :
    guidRoundTrip (.str (uuidCanonical n)) b = .ok (.str (uuidCanonical n)) := by
  have hparse := pyUuidParse_canonical n h
  have hcanon := canonOfUuidObj_eq n
  have hlow := lowerStr_uuidCanonical n
  have hbytes := pyUuidFromBytes_uuidBytes n h
  cases b with
  | postgresql =>
    show GUID.process_result_value (.str (lowerStr (uuidCanonical n))) .postgresql = _
    rw [hlow]
    simp only [GUID.process_result_value, hparse, hcanon]
  | oracle =>
    simp only [guidRoundTrip, GUID.process_bind_param, pyUuidFromVal, hparse,
      Except.map, GUID.process_result_value, hbytes, hcanon]
  | mysql =>
    simp only [guidRoundTrip, GUID.process_bind_param, pyUuidFromVal, hparse,
      Except.map, GUID.process_result_value, hbytes, hcanon]
  | generic =>
    simp only [guidRoundTrip, GUID.process_bind_param, pyUuidFromVal, hparse,
      Except.map, GUID.process_result_value, uuidCanonical, hcanon]
    simp only [uuidCanonical] at hparse
    simp only [hparse, uuidCanonical] at hcanon ⊢
    simp [hcanon]

/-- Witness for C1 at the spec's example identifier
`550e8400e29b41d4a716446655440000` on the oracle backend. -/
theorem C1_guid_roundtrip_witness :
    (0x550e8400e29b41d4a716446655440000 : Nat) < 2 ^ 128 ∧
    guidRoundTrip (.str (uuidCanonical 0x550e8400e29b41d4a716446655440000)) .oracle =
      .ok (.str (uuidCanonical 0x550e8400e29b41d4a716446655440000)) :=
  ⟨by norm_num, C1_guid_roundtrip 0x550e8400e29b41d4a716446655440000 (by norm_num) .oracle⟩

/-- C2, counterexample: on the oracle and mysql backends the encode of
the universal-identifier codec does not accept an already-parsed
`uuid.UUID` object — `uuid.UUID(value)` raises on a `UUID` instance —
so "producing the backend's encoded form without error for either
input shape" fails for every 128-bit identifier object there, e.g. for
the identifier `550e8400e29b41d4a716446655440000`. -/
theorem C2_uuid_object_counterexample :
    GUID.process_bind_param (.uuidObj 0x550e8400e29b41d4a716446655440000) .oracle =
      .error .attributeError ∧
    GUID.process_bind_param (.uuidObj 0x550e8400e29b41d4a716446655440000) .mysql =
      .error .attributeError :=
  ⟨rfl, rfl⟩

/-- C2, amended: the universal-identifier codec's encode accepts the
canonical hex string on every backend, and accepts an already-parsed
128-bit identifier object only on the postgresql and generic backends;
on oracle and mysql a `uuid.UUID` object input raises. -/
theorem C2_encode_input_shapes (n : Nat) (h : n < 2 ^ 128) :
    (∀ b : Dialect, ∃ r, GUID.process_bind_param (.str (uuidCanonical n)) b = .ok r) ∧
    GUID.process_bind_param (.uuidObj n) .postgresql =
      .ok (.str (lowerStr (String.mk (uuidStrChars n)))) ∧
    GUID.process_bind_param (.uuidObj n) .generic = .ok (.str (uuidCanonical n)) ∧
    GUID.process_bind_param (.uuidObj n) .oracle = .error .attributeError ∧
    GUID.process_bind_param (.uuidObj n) .mysql = .error .attributeError := by
  have hparse := pyUuidParse_canonical n h
  refine ⟨?_, rfl, rfl, rfl, rfl⟩
  intro b
  cases b with
  | postgresql => exact ⟨_, rfl⟩
  | oracle =>
    refine ⟨.bytes (uuidBytes n), ?_⟩
    simp only [GUID.process_bind_param, pyUuidFromVal, hparse, Except.map]
  | mysql =>
    refine ⟨.bytes (uuidBytes n), ?_⟩
    simp only [GUID.process_bind_param, pyUuidFromVal, hparse, Except.map]
  | generic =>
    refine ⟨.str (uuidCanonical n), ?_⟩
    simp only [uuidCanonical] at hparse ⊢
    simp only [GUID.process_bind_param, pyUuidFromVal, hparse, Except.map]

/-- Witness for C2 (amended) at the spec's example identifier. -/
theorem C2_encode_input_shapes_witness :
    (0x550e8400e29b41d4a716446655440000 : Nat) < 2 ^ 128 ∧
    GUID.process_bind_param (.uuidObj 0x550e8400e29b41d4a716446655440000) .generic =
      .ok (.str (uuidCanonical 0x550e8400e29b41d4a716446655440000)) :=
  ⟨by norm_num,
   (C2_encode_input_shapes 0x550e8400e29b41d4a716446655440000 (by norm_num)).2.2.1⟩

/-- C3: the tri-state-boolean codec and both namespaced-identity codecs
declare a bounded-length text column of length 255 for every backend,
uniformly. -/
theorem C3_physical_shape_255 (b : Dialect) :
    BooleanString.load_dialect_imp b = .varchar (some 255) ∧
    InternalAccountString.load_dialect_imp b = .varchar (some 255) ∧
    InternalScopeString.load_dialect_imp b = .varchar (some 255) :=
  ⟨rfl, rfl, rfl⟩

/-- C4: for every backend, a bare string passed to the encode of either
namespaced-identity codec raises `InvalidType`, while a proper typed
wrapper has its internal namespace-qualified string stored. -/
theorem C4_bare_string_invalid_type (b : Dialect) (s : String) (fe : Bool) :
    InternalAccountString.process_bind_param (.str s) b = .error .invalidType ∧
    InternalScopeString.process_bind_param (.str s) b = .error .invalidType ∧
    InternalAccountString.process_bind_param (.internalAccount s fe) b = .ok (.str s) ∧
    InternalScopeString.process_bind_param (.internalScope s fe) b = .ok (.str s) :=
  ⟨rfl, rfl, rfl, rfl⟩

/-- C5: for every non-null stored internal identity string, each
namespaced-identity codec's decode reconstructs the typed wrapper
directly from that string with `from_external = False`, so the
external→internal namespace-resolution step is never invoked. -/
theorem C5_decode_bypasses_resolution (s : String) (b : Dialect) :
    InternalAccountString.process_result_value (.str s) b = .ok (.internalAccount s false) ∧
    InternalScopeString.process_result_value (.str s) b = .ok (.internalScope s false) ∧
    namespaceResolutionInvoked false = false :=
  ⟨rfl, rfl, rfl⟩

/-- C6: for every string `s` not case-insensitively equal to `"true"`
or `"false"` and every backend, the tri-state-boolean codec stores and
returns `s` verbatim: decode (encode s) = s, never an error. -/
theorem C6_boolean_passthrough (s : String) (b : Dialect)
    (h1 : lowerStr s ≠ "true") (h2 : lowerStr s ≠ "false") :
    boolRoundTrip (.str s) b = .ok (.str s) := by
  simp only [boolRoundTrip, BooleanString.process_bind_param, if_neg h1, if_neg h2,
    pyStr, BooleanString.process_result_value]

/-- Witness for C6 at the non-boolean sentinel string `"maybe"`. -/
theorem C6_boolean_passthrough_witness :
    lowerStr "maybe" ≠ "true" ∧ lowerStr "maybe" ≠ "false" ∧
    boolRoundTrip (.str "maybe") .generic = .ok (.str "maybe") :=
  ⟨by decide, by decide,
   C6_boolean_passthrough "maybe" .generic (by decide) (by decide)⟩

/-- C7: for every codec (universal identifier, tri-state boolean,
structured document, account identity, scope identity) and every
backend, encode of `None` is `None` and decode of `None` is `None`,
with no validation applied. -/
theorem C7_null_passthrough (b : Dialect) :
    GUID.process_bind_param .none b = .ok .none ∧
    GUID.process_result_value .none b = .ok .none ∧
    BooleanString.process_bind_param .none b = .ok .none ∧
    BooleanString.process_result_value .none b = .ok .none ∧
    JSON.process_bind_param .none b = .ok .none ∧
    JSON.process_result_value .none b = .ok .none ∧
    InternalAccountString.process_bind_param .none b = .ok .none ∧
    InternalAccountString.process_result_value .none b = .ok .none ∧
    InternalScopeString.process_bind_param .none b = .ok .none ∧
    InternalScopeString.process_result_value .none b = .ok .none :=
  ⟨rfl, rfl, rfl, rfl, rfl, rfl, rfl, rfl, rfl, rfl⟩

/-- C8: for every backend, the tri-state-boolean codec encodes `True`
to the literal `"true"` and `False` to `"false"`, normalizes strings
case-insensitively equal to `"true"` / `"false"` to those lowercase
literals, and decodes stored text case-insensitively equal to `"true"`
/ `"false"` to the corresponding boolean. -/
theorem C8_boolean_literals (b : Dialect) :
    BooleanString.process_bind_param (.pyBool true) b = .ok (.str "true") ∧
    BooleanString.process_bind_param (.pyBool false) b = .ok (.str "false") ∧
    (∀ s : String, lowerStr s = "true" →
      BooleanString.process_bind_param (.str s) b = .ok (.str "true")) ∧
    (∀ s : String, lowerStr s = "false" →
      BooleanString.process_bind_param (.str s) b = .ok (.str "false")) ∧
    (∀ s : String, lowerStr s = "true" →
      BooleanString.process_result_value (.str s) b = .ok (.pyBool true)) ∧
    (∀ s : String, lowerStr s = "false" →
      BooleanString.process_result_value (.str s) b = .ok (.pyBool false)) := by
  refine ⟨rfl, rfl, ?_, ?_, ?_, ?_⟩ <;> intro s hs <;>
    simp [BooleanString.process_bind_param, BooleanString.process_result_value, hs]

/-- Witness for C8 at the stored texts `"TRUE"` / `"False"` and the
mixed-case input `"TrUe"` on the oracle backend. -/
theorem C8_boolean_literals_witness :
    BooleanString.process_result_value (.str "TRUE") .oracle = .ok (.pyBool true) ∧
    BooleanString.process_result_value (.str "False") .oracle = .ok (.pyBool false) ∧
    BooleanString.process_bind_param (.str "TrUe") .oracle = .ok (.str "true") :=
  ⟨(C8_boolean_literals .oracle).2.2.2.2.1 "TRUE" (by decide),
   (C8_boolean_literals .oracle).2.2.2.2.2 "False" (by decide),
   (C8_boolean_literals .oracle).2.2.1 "TrUe" (by decide)⟩

/-- C9: for both namespaced-identity codecs, the compared-value
coercion hook yields the plain text type for the pattern-match
operators (LIKE, NOT LIKE) and the typed codec itself for every other
operator. -/
theorem C9_coerce_compared_value (v : PyVal) :
    InternalAccountString.coerce_compared_value .like_op v = .stringPlain ∧
    InternalAccountString.coerce_compared_value .notlike_op v = .stringPlain ∧
    InternalScopeString.coerce_compared_value .like_op v = .stringPlain ∧
    InternalScopeString.coerce_compared_value .notlike_op v = .stringPlain ∧
    (∀ op : SqlOperator, op ≠ .like_op → op ≠ .notlike_op →
      InternalAccountString.coerce_compared_value op v = .internalAccountStringType ∧
      InternalScopeString.coerce_compared_value op v = .internalScopeStringType) := by
  refine ⟨rfl, rfl, rfl, rfl, ?_⟩
  intro op h1 h2
  cases op with
  | like_op => exact absurd rfl h1
  | notlike_op => exact absurd rfl h2
  | eq_op => exact ⟨rfl, rfl⟩
  | ne_op => exact ⟨rfl, rfl⟩
  | lt_op => exact ⟨rfl, rfl⟩
  | in_op => exact ⟨rfl, rfl⟩

/-- Witness for C9 at the equality operator. -/
theorem C9_coerce_compared_value_witness :
    InternalAccountString.coerce_compared_value .eq_op (.str "a") =
      .internalAccountStringType ∧
    InternalScopeString.coerce_compared_value .eq_op (.str "a") =
      .internalScopeStringType :=
  (C9_coerce_compared_value (.str "a")).2.2.2.2 .eq_op (by decide) (by decide)

/-- C10: `list_distances` ignores its `filter_` argument entirely: for
every filter value it returns the `to_dict` projection of every
distance record in the store, in order — the same result as with no
filter. -/
theorem C10_list_distances_ignores_filter
    (f : Option (List (String × DictVal))) (rows : List Distance) :
    list_distances f rows = list_distances Option.none rows ∧
    list_distances f rows = rows.map Distance.to_dict :=
  ⟨rfl, rfl⟩
